import Mathlib

/-!
Verification development for the coveragetracer repository.

The definitions below are a shallow embedding of the Python sources
`src/coverageanalyzer/block.py` and `src/coverageanalyzer/line.py`:
Python `dict`s become association lists, Python `set`s of line numbers
become lists whose cardinality is taken up to duplicates, Python floats
become rationals, and fallible Python operations (KeyError,
ZeroDivisionError) return `Except`.
-/

set_option autoImplicit false

namespace CoverageTracer

/-- Embedding of `Block` (block.py, class Block): a syntactic region of a
source file.  `__eq__`/`__hash__` compare `(file_path, start_line,
end_line, type)` and ignore `code`; see `Block.pyEq`. -/
structure Block where
  file_path : String
  start_line : Nat
  end_line : Nat
  type : String
  code : String
deriving Repr, DecidableEq

/-- Python `Block.__eq__`: field equality on everything except `code`. -/
def Block.pyEq (a b : Block) : Bool :=
  a.file_path == b.file_path && a.start_line == b.start_line &&
    a.end_line == b.end_line && a.type == b.type

/-- The identity quadruple used by `Block.__eq__` and `Block.__hash__`. -/
def blockKey (b : Block) : String × Nat × Nat × String :=
  (b.file_path, b.start_line, b.end_line, b.type)

/-- Cardinality of a Python `set` of blocks represented as a list:
the number of distinct `__eq__`-identity keys. -/
def setCard (l : List Block) : Nat :=
  ((l.map blockKey).dedup).length

/-- Python `d.get(k, dflt)` on an association list. -/
def dictGet {α : Type} (d : List (String × α)) (k : String) (dflt : α) : α :=
  match d.find? (fun p => p.1 == k) with
  | some p => p.2
  | none => dflt

/-- Python `d[k]` on an association list: `none` models a `KeyError`. -/
def dictFind {α : Type} (d : List (String × α)) (k : String) : Option α :=
  match d.find? (fun p => p.1 == k) with
  | some p => some p.2
  | none => none

/-- Python `k in d` on an association list. -/
def dictContains {α : Type} (d : List (String × α)) (k : String) : Bool :=
  (d.find? (fun p => p.1 == k)).isSome

/-- Embedding of `BlockCoverageReport` (block.py): executed line numbers
per file paired with the static block catalogue per file. -/
structure BlockCoverageReport where
  coverage_data : List (String × List Nat)
  total_executable_blocks : List (String × List Block)

/-- The evidence window `range(block.start_line + 1, block.end_line + 1)`
iterated by `_get_covered_blocks` (block.py line 79). -/
def blockWindow (b : Block) : List Nat :=
  List.range' (b.start_line + 1) (b.end_line - b.start_line)

/-- The `any(line in covered_lines for line in range(...))` test of
`_get_covered_blocks` (block.py lines 77-80). -/
def blockWindowHit (covered_lines : List Nat) (b : Block) : Bool :=
  (blockWindow b).any (fun line => covered_lines.contains line)

/-- Embedding of `BlockCoverageReport._get_covered_blocks` (block.py lines
64-83).  The Python method returns a `set`; we return the filtered list
and take cardinality via `setCard` where the Python code takes `len`. -/
def BlockCoverageReport._get_covered_blocks (r : BlockCoverageReport)
    (file : String) : List Block :=
  let covered_lines := dictGet r.coverage_data file []
  (dictGet r.total_executable_blocks file []).filter
    (fun b => blockWindowHit covered_lines b)

/-- `len(self._get_covered_blocks(file))`: distinct covered blocks. -/
def BlockCoverageReport.covered_count (r : BlockCoverageReport)
    (file : String) : Nat :=
  setCard (r._get_covered_blocks file)

/-- Embedding of `BlockCoverageReport.get_file_coverage` (block.py lines
85-96). -/
def BlockCoverageReport.get_file_coverage (r : BlockCoverageReport)
    (file : String) : ℚ :=
  let total_blocks : Nat := (dictGet r.total_executable_blocks file []).length
  let covered_blocks : Nat := r.covered_count file
  if total_blocks > 0 then (covered_blocks : ℚ) / (total_blocks : ℚ) else 0

/-- Embedding of `BlockCoverageReport.get_total_coverage` (block.py lines
98-110). -/
def BlockCoverageReport.get_total_coverage (r : BlockCoverageReport) : ℚ :=
  let total_blocks : Nat :=
    (r.total_executable_blocks.map (fun p => p.2.length)).sum
  let covered_blocks : Nat :=
    (r.total_executable_blocks.map (fun p => r.covered_count p.1)).sum
  if total_blocks > 0 then (covered_blocks : ℚ) / (total_blocks : ℚ) else 0

/-- Embedding of `BlockCoverageReport.is_block_covered` (block.py lines
112-121): Python `block in self._get_covered_blocks(...)`, i.e. membership
up to `Block.__eq__`. -/
def BlockCoverageReport.is_block_covered (r : BlockCoverageReport)
    (b : Block) : Bool :=
  (r._get_covered_blocks b.file_path).any (fun x => Block.pyEq x b)

example :
    BlockCoverageReport.is_block_covered
      ⟨[("f", [2])], [("f", [⟨"f", 1, 2, "If", "c"⟩])]⟩
      ⟨"f", 1, 2, "If", "c"⟩ = true := by decide

example :
    BlockCoverageReport.is_block_covered
      ⟨[("f", [1])], [("f", [⟨"f", 1, 2, "If", "c"⟩])]⟩
      ⟨"f", 1, 2, "If", "c"⟩ = false := by decide

deriving instance DecidableEq for Except

/-- Python float division, which raises `ZeroDivisionError` on a zero
denominator. -/
def pyDiv (a b : ℚ) : Except String ℚ :=
  if b = 0 then Except.error "ZeroDivisionError" else Except.ok (a / b)

/-- Embedding of `LineCoverageReport` (line.py): executed lines per file
paired with all executable lines per file. -/
structure LineCoverageReport where
  coverage_data : List (String × List Nat)
  total_executable_lines : List (String × List Nat)

/-- Embedding of `LineCoverageReport.get_file_coverage` (line.py lines
29-44): early return `0.0` when `file not in self.coverage_data`, then
`len(self.total_executable_lines[file])` (a `KeyError` when absent) and an
unguarded division. -/
def LineCoverageReport.get_file_coverage (r : LineCoverageReport)
    (file : String) : Except String ℚ :=
  if dictContains r.coverage_data file = false then Except.ok 0
  else
    match dictFind r.total_executable_lines file with
    | none => Except.error "KeyError"
    | some executable =>
        let total_lines : Nat := executable.dedup.length
        let covered_lines : Nat :=
          (dictGet r.coverage_data file []).dedup.length
        pyDiv (covered_lines : ℚ) (total_lines : ℚ)

/-- Embedding of `LineCoverageReport.get_total_coverage` (line.py lines
46-55): the division is unguarded. -/
def LineCoverageReport.get_total_coverage (r : LineCoverageReport) :
    Except String ℚ :=
  let total_lines : Nat :=
    (r.total_executable_lines.map (fun p => p.2.dedup.length)).sum
  let covered_lines : Nat :=
    (r.coverage_data.map (fun p => p.2.dedup.length)).sum
  pyDiv (covered_lines : ℚ) (total_lines : ℚ)

/-- The data the external coverage.py facility hands to
`CoveragePyAnalyzer.analyze_coverage_data`: the measured files, the raw
executed lines reported per file (`cov.get_data().lines(file)`), and the
statically executable lines per file (`cov.analysis2(file)[1]`). -/
structure CovMeasurement where
  measured_files : List String
  raw_lines : String → List Nat
  executable_lines : String → List Nat

/-- Embedding of `CoveragePyAnalyzer.get_all_executable_lines` (line.py
lines 93-110). -/
def get_all_executable_lines (cov : CovMeasurement) :
    List (String × List Nat) :=
  cov.measured_files.map (fun file => (file, cov.executable_lines file))

/-- Embedding of `CoveragePyAnalyzer.analyze_coverage_data` (line.py lines
112-131): for each measured file, the stored executed set is
`total_executable_lines[file].intersection(lines)`. -/
def analyze_coverage_data (cov : CovMeasurement) :
    List (String × List Nat) × List (String × List Nat) :=
  let total_executable_lines := get_all_executable_lines cov
  let coverage_data := cov.measured_files.map (fun file =>
    (file, (dictGet total_executable_lines file []).filter
      (fun n => (cov.raw_lines file).contains n)))
  (coverage_data, total_executable_lines)

example :
    LineCoverageReport.get_file_coverage ⟨[("f", [])], [("f", [])]⟩ "f" =
      Except.error "ZeroDivisionError" := by decide

example :
    LineCoverageReport.get_file_coverage ⟨[("a", [1, 2])], [("a", [1, 2, 3, 4])]⟩ "a" =
      Except.ok (1 / 2) := by
  norm_num [LineCoverageReport.get_file_coverage, dictGet, dictFind, dictContains,
    pyDiv]

example :
    (analyze_coverage_data
      ⟨["f"], fun _ => [1, 2, 7], fun _ => [1, 2, 3]⟩).1 = [("f", [1, 2])] := by
  decide

/-- Embedding of the Python `ast` statement nodes that `BlockASTVisitor`
inspects.  `lineno` and `end_lineno` are the position attributes the
external parser stores on every node; the visitor only ever reads them.
Statements that define no block (assignments, calls, returns, ...) are
`Simple`; `TryStmt.handlers` carries the statement bodies of the `except`
clauses, which `generic_visit` descends into. -/
inductive PyStmt where
  | Simple (lineno end_lineno : Nat)
  | FunctionDef (lineno end_lineno : Nat) (body : List PyStmt)
  | AsyncFunctionDef (lineno end_lineno : Nat) (body : List PyStmt)
  | ClassDef (lineno end_lineno : Nat) (body : List PyStmt)
  | IfStmt (lineno end_lineno : Nat) (body orelse : List PyStmt)
  | ForStmt (lineno end_lineno : Nat) (body orelse : List PyStmt)
  | AsyncForStmt (lineno end_lineno : Nat) (body orelse : List PyStmt)
  | WhileStmt (lineno end_lineno : Nat) (body orelse : List PyStmt)
  | TryStmt (lineno end_lineno : Nat) (body : List PyStmt)
      (handlers : List (List PyStmt)) (orelse finalbody : List PyStmt)
  | WithStmt (lineno end_lineno : Nat) (body : List PyStmt)
  | AsyncWithStmt (lineno end_lineno : Nat) (body : List PyStmt)
deriving Repr

/-- The parser attribute `node.lineno`. -/
def PyStmt.lineno : PyStmt → Nat
  | .Simple l _ => l
  | .FunctionDef l _ _ => l
  | .AsyncFunctionDef l _ _ => l
  | .ClassDef l _ _ => l
  | .IfStmt l _ _ _ => l
  | .ForStmt l _ _ _ => l
  | .AsyncForStmt l _ _ _ => l
  | .WhileStmt l _ _ _ => l
  | .TryStmt l _ _ _ _ _ => l
  | .WithStmt l _ _ => l
  | .AsyncWithStmt l _ _ => l

/-- The parser attribute `node.end_lineno`. -/
def PyStmt.end_lineno : PyStmt → Nat
  | .Simple _ e => e
  | .FunctionDef _ e _ => e
  | .AsyncFunctionDef _ e _ => e
  | .ClassDef _ e _ => e
  | .IfStmt _ e _ _ => e
  | .ForStmt _ e _ _ => e
  | .AsyncForStmt _ e _ _ => e
  | .WhileStmt _ e _ _ => e
  | .TryStmt _ e _ _ _ _ => e
  | .WithStmt _ e _ => e
  | .AsyncWithStmt _ e _ => e

/-- The parser attribute `node.body` (empty for simple statements). -/
def PyStmt.body : PyStmt → List PyStmt
  | .Simple _ _ => []
  | .FunctionDef _ _ b => b
  | .AsyncFunctionDef _ _ b => b
  | .ClassDef _ _ b => b
  | .IfStmt _ _ b _ => b
  | .ForStmt _ _ b _ => b
  | .AsyncForStmt _ _ b _ => b
  | .WhileStmt _ _ b _ => b
  | .TryStmt _ _ b _ _ _ => b
  | .WithStmt _ _ b => b
  | .AsyncWithStmt _ _ b => b

/-- Python `node.body[-1].end_lineno`.  The parser never produces an empty
statement body, so the `0` default lies off the reachable domain (the
Python expression would raise `IndexError` there). -/
def lastEndLineno (body : List PyStmt) : Nat :=
  match body.getLast? with
  | some s => s.end_lineno
  | none => 0

/-- Python `stmts[0].lineno`, with the same off-domain convention as
`lastEndLineno`. -/
def firstLineno (stmts : List PyStmt) : Nat :=
  match stmts.head? with
  | some s => s.lineno
  | none => 0

/-- Embedding of `BlockASTVisitor.add_block` (block.py lines 242-254):
span from the node's own line to the last line of its final body
statement.  `unparse` stands for the external `ast.unparse`. -/
def add_block (file : String) (unparse : PyStmt → String) (node : PyStmt)
    (block_type : String) : Block :=
  ⟨file, node.lineno, lastEndLineno node.body, block_type, unparse node⟩

/-- Embedding of `BlockASTVisitor.add_else_block` (block.py lines 256-262):
note the `- 1` on the start line, and the source slice
`code_lines[else_start:else_end]`. -/
def add_else_block (file : String) (code_lines : List String)
    (orelse : List PyStmt) : Block :=
  let else_start := firstLineno orelse - 1
  let else_end := lastEndLineno orelse
  let else_code :=
    String.intercalate "\n" ((code_lines.drop else_start).take (else_end - else_start))
  ⟨file, else_start, else_end, "Else", else_code⟩

/-- Embedding of the `finalbody` branch of `BlockASTVisitor.visit_Try`
(block.py lines 300-316): the start line is `finalbody[0].lineno` itself,
with no `- 1`. -/
def add_finally_block (file : String) (code_lines : List String)
    (finalbody : List PyStmt) : Block :=
  let finally_start := firstLineno finalbody
  let finally_end := lastEndLineno finalbody
  let finally_code :=
    String.intercalate "\n"
      ((code_lines.drop (finally_start - 1)).take (finally_end - (finally_start - 1)))
  ⟨file, finally_start, finally_end, "Finally", finally_code⟩

mutual

/-- Embedding of one `BlockASTVisitor.visit_*` dispatch (block.py lines
264-339): emit the node's own block(s), then `generic_visit` recurses into
the child statement lists in `ast` field order. -/
def visitStmt (file : String) (code_lines : List String)
    (unparse : PyStmt → String) : PyStmt → List Block
  | .Simple _ _ => []
  | .FunctionDef l e body =>
      add_block file unparse (.FunctionDef l e body) "Function" ::
        visitStmts file code_lines unparse body
  | .AsyncFunctionDef l e body =>
      add_block file unparse (.AsyncFunctionDef l e body) "Async Function" ::
        visitStmts file code_lines unparse body
  | .ClassDef l e body =>
      add_block file unparse (.ClassDef l e body) "Class" ::
        visitStmts file code_lines unparse body
  | .IfStmt l e body orelse =>
      add_block file unparse (.IfStmt l e body orelse) "If" ::
        ((if orelse.isEmpty then [] else [add_else_block file code_lines orelse]) ++
          (visitStmts file code_lines unparse body ++
            visitStmts file code_lines unparse orelse))
  | .ForStmt l e body orelse =>
      add_block file unparse (.ForStmt l e body orelse) "For" ::
        ((if orelse.isEmpty then [] else [add_else_block file code_lines orelse]) ++
          (visitStmts file code_lines unparse body ++
            visitStmts file code_lines unparse orelse))
  | .AsyncForStmt l e body orelse =>
      add_block file unparse (.AsyncForStmt l e body orelse) "Async For" ::
        ((if orelse.isEmpty then [] else [add_else_block file code_lines orelse]) ++
          (visitStmts file code_lines unparse body ++
            visitStmts file code_lines unparse orelse))
  | .WhileStmt l e body orelse =>
      add_block file unparse (.WhileStmt l e body orelse) "While" ::
        ((if orelse.isEmpty then [] else [add_else_block file code_lines orelse]) ++
          (visitStmts file code_lines unparse body ++
            visitStmts file code_lines unparse orelse))
  | .TryStmt l e body handlers orelse finalbody =>
      add_block file unparse (.TryStmt l e body handlers orelse finalbody) "Try" ::
        ((if orelse.isEmpty then [] else [add_else_block file code_lines orelse]) ++
          ((if finalbody.isEmpty then []
            else [add_finally_block file code_lines finalbody]) ++
            (visitStmts file code_lines unparse body ++
              (visitHandlers file code_lines unparse handlers ++
                (visitStmts file code_lines unparse orelse ++
                  visitStmts file code_lines unparse finalbody)))))
  | .WithStmt l e body =>
      add_block file unparse (.WithStmt l e body) "With" ::
        visitStmts file code_lines unparse body
  | .AsyncWithStmt l e body =>
      add_block file unparse (.AsyncWithStmt l e body) "Async With" ::
        visitStmts file code_lines unparse body

/-- `generic_visit` over a statement list: concatenation of the blocks of
each statement, in list order. -/
def visitStmts (file : String) (code_lines : List String)
    (unparse : PyStmt → String) : List PyStmt → List Block
  | [] => []
  | s :: rest =>
      visitStmt file code_lines unparse s ++
        visitStmts file code_lines unparse rest

/-- `generic_visit` descending through the `except` handler bodies (the
visitor defines no `visit_ExceptHandler`, so handlers only contribute the
blocks nested in their bodies). -/
def visitHandlers (file : String) (code_lines : List String)
    (unparse : PyStmt → String) : List (List PyStmt) → List Block
  | [] => []
  | h :: rest =>
      visitStmts file code_lines unparse h ++
        visitHandlers file code_lines unparse rest

end

/-- Embedding of `BlockASTVisitor.extract_code_blocks` (block.py lines
227-234): visiting the module node `generic_visit`s its statement list. -/
def extract_code_blocks (file : String) (code_lines : List String)
    (unparse : PyStmt → String) (module_body : List PyStmt) : List Block :=
  visitStmts file code_lines unparse module_body

example :
    extract_code_blocks "f" ["if c:", "    for x in y:", "        pass", "else:", "    pass"]
      (fun _ => "")
      [.IfStmt 1 5 [.ForStmt 2 3 [.Simple 3 3] []] [.Simple 5 5]] =
      [⟨"f", 1, 3, "If", ""⟩, ⟨"f", 4, 5, "Else", "    pass"⟩,
        ⟨"f", 2, 3, "For", ""⟩] := by decide

theorem mem_blockWindow {b : Block} {n : Nat} :
    n ∈ blockWindow b ↔ b.start_line < n ∧ n ≤ b.end_line := by
  unfold blockWindow
  rw [List.mem_range'_1]
  omega

theorem blockWindowHit_iff {cov : List Nat} {b : Block} :
    blockWindowHit cov b = true ↔
      ∃ n, n ∈ cov ∧ b.start_line < n ∧ n ≤ b.end_line := by
  unfold blockWindowHit
  rw [List.any_eq_true]
  constructor
  · rintro ⟨n, hmem, hc⟩
    exact ⟨n, by simpa using hc, mem_blockWindow.1 hmem⟩
  · rintro ⟨n, hcov, hwin⟩
    exact ⟨n, mem_blockWindow.2 hwin, by simpa using hcov⟩

theorem Block.pyEq_iff {a b : Block} :
    Block.pyEq a b = true ↔
      a.file_path = b.file_path ∧ a.start_line = b.start_line ∧
        a.end_line = b.end_line ∧ a.type = b.type := by
  unfold Block.pyEq
  simp [Bool.and_eq_true, beq_iff_eq, and_assoc]

theorem blockWindowHit_congr {cov : List Nat} {a b : Block}
    (h : Block.pyEq a b = true) :
    blockWindowHit cov a = blockWindowHit cov b := by
  obtain ⟨-, h2, h3, -⟩ := Block.pyEq_iff.1 h
  unfold blockWindowHit blockWindow
  rw [h2, h3]

/-- C1 (amended): for a block `b` that occurs (up to `Block.__eq__`) in the
report's block catalogue for `b.file_path`, `is_block_covered b` returns
true iff some executed line of that file lies strictly after `b`'s header
line and at or before its end line. -/
theorem is_block_covered_iff_window (r : BlockCoverageReport) (b : Block)
    (hmem : (dictGet r.total_executable_blocks b.file_path []).any
      (fun x => Block.pyEq x b) = true) :
    r.is_block_covered b = true ↔
      ∃ n, n ∈ dictGet r.coverage_data b.file_path [] ∧
        b.start_line < n ∧ n ≤ b.end_line := by
  simp only [BlockCoverageReport.is_block_covered,
    BlockCoverageReport._get_covered_blocks]
  rw [List.any_eq_true]
  constructor
  · rintro ⟨x, hx, hxeq⟩
    rw [List.mem_filter] at hx
    have hcongr :=
      @blockWindowHit_congr (dictGet r.coverage_data b.file_path []) _ _ hxeq
    have hb : blockWindowHit (dictGet r.coverage_data b.file_path []) b = true := by
      rw [← hcongr]
      exact hx.2
    exact blockWindowHit_iff.1 hb
  · intro hn
    rw [List.any_eq_true] at hmem
    obtain ⟨x, hxmem, hxeq⟩ := hmem
    refine ⟨x, ?_, hxeq⟩
    rw [List.mem_filter]
    refine ⟨hxmem, ?_⟩
    rw [blockWindowHit_congr hxeq]
    exact blockWindowHit_iff.2 hn

/-- Witness for C1's amended theorem at a concrete report. -/
theorem is_block_covered_iff_window_witness :
    BlockCoverageReport.is_block_covered
      ⟨[("f", [2])], [("f", [⟨"f", 1, 2, "If", "c"⟩])]⟩
      ⟨"f", 1, 2, "If", "c"⟩ = true :=
  (is_block_covered_iff_window
      ⟨[("f", [2])], [("f", [⟨"f", 1, 2, "If", "c"⟩])]⟩
      ⟨"f", 1, 2, "If", "c"⟩ (by decide)).2 ⟨2, by decide, by decide, by decide⟩

/-- C1 counterexample: for a `Block` value absent from the catalogue of its
file, `is_block_covered` returns false even though an executed line lies
inside the claimed evidence window `(start_line, end_line]`: the claim's
unrestricted "for every Block b" reading fails. -/
theorem is_block_covered_counterexample_uncatalogued :
    (2 ∈ dictGet (BlockCoverageReport.mk [("f", [2])] [("f", [])]).coverage_data
        "f" [] ∧
      Block.start_line ⟨"f", 1, 2, "If", "c"⟩ < 2 ∧
        2 ≤ Block.end_line ⟨"f", 1, 2, "If", "c"⟩) ∧
    BlockCoverageReport.is_block_covered ⟨[("f", [2])], [("f", [])]⟩
      ⟨"f", 1, 2, "If", "c"⟩ = false := by decide

/-- C9: a block whose `start_line` equals its `end_line` has an empty
evidence window `range(start_line + 1, end_line + 1)`, so it is never
covered, whatever lines were executed. -/
theorem single_line_block_never_covered (r : BlockCoverageReport) (b : Block)
    (h : b.start_line = b.end_line) :
    r.is_block_covered b = false := by
  simp only [BlockCoverageReport.is_block_covered,
    BlockCoverageReport._get_covered_blocks]
  rw [List.any_eq_false]
  intro x hx
  rw [List.mem_filter] at hx
  intro hxeq
  obtain ⟨-, h2, h3, -⟩ := Block.pyEq_iff.1 hxeq
  have hhit := blockWindowHit_iff.1 hx.2
  obtain ⟨n, -, hlt, hle⟩ := hhit
  omega

/-- Witness for C9: a single-line block stays uncovered even when its own
line was executed. -/
theorem single_line_block_never_covered_witness :
    BlockCoverageReport.is_block_covered
      ⟨[("f", [3])], [("f", [⟨"f", 3, 3, "If", "c"⟩])]⟩
      ⟨"f", 3, 3, "If", "c"⟩ = false :=
  single_line_block_never_covered
    ⟨[("f", [3])], [("f", [⟨"f", 3, 3, "If", "c"⟩])]⟩
    ⟨"f", 3, 3, "If", "c"⟩ rfl

/-- Spec side (§4.4): the total block count of one file, read off the
catalogue. -/
def specTotalBlockCount (r : BlockCoverageReport) (file : String) : Nat :=
  (dictGet r.total_executable_blocks file []).length

/-- Spec side (§4.4): the number of distinct catalogue blocks of `file`
with at least one executed line `n` satisfying
`start_line < n ≤ end_line`. -/
def specCoveredBlockCount (r : BlockCoverageReport) (file : String) : Nat :=
  setCard ((dictGet r.total_executable_blocks file []).filter
    (fun b => decide (∃ n, n ∈ dictGet r.coverage_data file [] ∧
      b.start_line < n ∧ n ≤ b.end_line)))

/-- Spec side (§4.4): the project-wide block count, as the length of the
flattened catalogue. -/
def specProjectTotalBlocks (r : BlockCoverageReport) : Nat :=
  ((r.total_executable_blocks.map Prod.snd).flatten).length

/-- Spec side (§4.4): the project-wide covered-block count. -/
def specProjectCoveredBlocks (r : BlockCoverageReport) : Nat :=
  (r.total_executable_blocks.map (fun p => specCoveredBlockCount r p.1)).sum

theorem specCoveredBlockCount_eq (r : BlockCoverageReport) (file : String) :
    specCoveredBlockCount r file = r.covered_count file := by
  unfold specCoveredBlockCount BlockCoverageReport.covered_count
    BlockCoverageReport._get_covered_blocks
  congr 1
  apply List.filter_congr
  intro b _
  rw [Bool.eq_iff_iff, decide_eq_true_eq, blockWindowHit_iff]

/-- C3: `get_total_coverage` is the block-weighted project ratio: the sum
of per-file covered-block counts over the flattened catalogue size, not a
mean of per-file ratios. -/
theorem get_total_coverage_block_weighted (r : BlockCoverageReport)
    (h : 0 < specProjectTotalBlocks r) :
    r.get_total_coverage =
      (specProjectCoveredBlocks r : ℚ) / (specProjectTotalBlocks r : ℚ) := by
  have htot : specProjectTotalBlocks r =
      (r.total_executable_blocks.map (fun p => p.2.length)).sum := by
    unfold specProjectTotalBlocks
    rw [List.length_flatten, List.map_map]
    rfl
  have hcov : specProjectCoveredBlocks r =
      (r.total_executable_blocks.map (fun p => r.covered_count p.1)).sum := by
    unfold specProjectCoveredBlocks
    rw [List.map_congr_left
      (fun (p : String × List Block) _ => specCoveredBlockCount_eq r p.1)]
  simp only [BlockCoverageReport.get_total_coverage]
  rw [← htot, ← hcov, if_pos h]

/-- Witness for C3 at the spec's own example: file A with one covered
block, file B with nine uncovered blocks, total coverage 1/10 (not the
0.5 mean of per-file ratios). -/
theorem get_total_coverage_block_weighted_witness :
    0 < specProjectTotalBlocks
        ⟨[("A", [2])],
          [("A", [⟨"A", 1, 2, "Function", ""⟩]),
            ("B", (List.range 9).map
              (fun i => ⟨"B", 10 * i + 1, 10 * i + 5, "Function", ""⟩))]⟩ ∧
      BlockCoverageReport.get_total_coverage
        ⟨[("A", [2])],
          [("A", [⟨"A", 1, 2, "Function", ""⟩]),
            ("B", (List.range 9).map
              (fun i => ⟨"B", 10 * i + 1, 10 * i + 5, "Function", ""⟩))]⟩ = 1 / 10 := by
  refine ⟨by decide, (get_total_coverage_block_weighted _ (by decide)).trans ?_⟩
  rw [show specProjectCoveredBlocks
      ⟨[("A", [2])],
        [("A", [⟨"A", 1, 2, "Function", ""⟩]),
          ("B", (List.range 9).map
            (fun i => ⟨"B", 10 * i + 1, 10 * i + 5, "Function", ""⟩))]⟩ = 1 from by decide,
    show specProjectTotalBlocks
      ⟨[("A", [2])],
        [("A", [⟨"A", 1, 2, "Function", ""⟩]),
          ("B", (List.range 9).map
            (fun i => ⟨"B", 10 * i + 1, 10 * i + 5, "Function", ""⟩))]⟩ = 10 from by decide]
  norm_num

/-- C4: per-file block coverage is covered count over total count when the
file has blocks, and exactly 0 when it has none (files absent from the
catalogue included); the division is guarded, never failing. -/
theorem get_file_coverage_blocks_spec (r : BlockCoverageReport) (file : String) :
    (0 < specTotalBlockCount r file →
      r.get_file_coverage file =
        (specCoveredBlockCount r file : ℚ) / (specTotalBlockCount r file : ℚ)) ∧
    (specTotalBlockCount r file = 0 → r.get_file_coverage file = 0) := by
  unfold specTotalBlockCount
  constructor
  · intro h
    simp only [BlockCoverageReport.get_file_coverage]
    rw [specCoveredBlockCount_eq, if_pos h]
  · intro h
    simp only [BlockCoverageReport.get_file_coverage]
    rw [if_neg (by omega)]

/-- Witness for C4: a file with one covered and one uncovered block yields
1/2; a file absent from the catalogue yields 0. -/
theorem get_file_coverage_blocks_spec_witness :
    BlockCoverageReport.get_file_coverage
        ⟨[("f", [2])], [("f", [⟨"f", 1, 2, "If", ""⟩, ⟨"f", 3, 4, "If", ""⟩])]⟩
        "g" = 0 ∧
      BlockCoverageReport.get_file_coverage
        ⟨[("f", [2])], [("f", [⟨"f", 1, 2, "If", ""⟩, ⟨"f", 3, 4, "If", ""⟩])]⟩
        "f" = 1 / 2 := by
  refine ⟨(get_file_coverage_blocks_spec _ "g").2 (by decide),
    ((get_file_coverage_blocks_spec _ "f").1 (by decide)).trans ?_⟩
  rw [show specCoveredBlockCount
      ⟨[("f", [2])], [("f", [⟨"f", 1, 2, "If", ""⟩, ⟨"f", 3, 4, "If", ""⟩])]⟩ "f" = 1
      from by decide,
    show specTotalBlockCount
      ⟨[("f", [2])], [("f", [⟨"f", 1, 2, "If", ""⟩, ⟨"f", 3, 4, "If", ""⟩])]⟩ "f" = 2
      from by decide]
  norm_num

theorem setCard_le_of_subset {l1 l2 : List Block} (h : l1 ⊆ l2) :
    setCard l1 ≤ setCard l2 := by
  unfold setCard
  rw [← List.card_toFinset, ← List.card_toFinset]
  apply Finset.card_le_card
  intro k hk
  rw [List.mem_toFinset] at hk ⊢
  obtain ⟨b, hb, rfl⟩ := List.mem_map.1 hk
  exact List.mem_map.2 ⟨b, h hb, rfl⟩

theorem covered_blocks_subset (r1 r2 : BlockCoverageReport)
    (hcat : r1.total_executable_blocks = r2.total_executable_blocks)
    (hmono : ∀ f n, n ∈ dictGet r1.coverage_data f [] →
      n ∈ dictGet r2.coverage_data f [])
    (f : String) :
    r1._get_covered_blocks f ⊆ r2._get_covered_blocks f := by
  intro b hb
  simp only [BlockCoverageReport._get_covered_blocks] at hb ⊢
  rw [List.mem_filter] at hb ⊢
  refine ⟨hcat ▸ hb.1, ?_⟩
  obtain ⟨n, hn, hwin⟩ := blockWindowHit_iff.1 hb.2
  exact blockWindowHit_iff.2 ⟨n, hmono f n hn, hwin⟩

/-- C8: appending only grows the executed line sets, and for a fixed block
catalogue a pointwise-larger snapshot covers every block the smaller one
covers; covered-block counts and both coverage ratios never decrease. -/
theorem append_monotone (r1 r2 : BlockCoverageReport)
    (hcat : r1.total_executable_blocks = r2.total_executable_blocks)
    (hmono : ∀ f n, n ∈ dictGet r1.coverage_data f [] →
      n ∈ dictGet r2.coverage_data f []) :
    (∀ b, r1.is_block_covered b = true → r2.is_block_covered b = true) ∧
      (∀ f, r1.covered_count f ≤ r2.covered_count f) ∧
      (∀ f, r1.get_file_coverage f ≤ r2.get_file_coverage f) ∧
      r1.get_total_coverage ≤ r2.get_total_coverage := by
  have hsub := covered_blocks_subset r1 r2 hcat hmono
  have hcount : ∀ f, r1.covered_count f ≤ r2.covered_count f := by
    intro f
    exact setCard_le_of_subset (hsub f)
  refine ⟨?_, hcount, ?_, ?_⟩
  · intro b hb
    rw [BlockCoverageReport.is_block_covered, List.any_eq_true] at hb ⊢
    obtain ⟨x, hx, hxeq⟩ := hb
    exact ⟨x, hsub _ hx, hxeq⟩
  · intro f
    simp only [BlockCoverageReport.get_file_coverage]
    rw [hcat]
    by_cases h : (dictGet r2.total_executable_blocks f []).length > 0
    · rw [if_pos h, if_pos h]
      rw [div_le_div_iff_of_pos_right (by exact_mod_cast h)]
      exact_mod_cast hcount f
    · rw [if_neg h, if_neg h]
  · simp only [BlockCoverageReport.get_total_coverage]
    rw [hcat]
    by_cases h : (r2.total_executable_blocks.map (fun p => p.2.length)).sum > 0
    · rw [if_pos h, if_pos h]
      rw [div_le_div_iff_of_pos_right (by exact_mod_cast h)]
      exact_mod_cast List.sum_le_sum
        (fun (p : String × List Block) _ => hcount p.1)
    · rw [if_neg h, if_neg h]

/-- Witness for C8: adding the executed line 2 turns the catalogue's one
block from uncovered to covered and the ratios from 0 to 1. -/
theorem append_monotone_witness :
    BlockCoverageReport.get_total_coverage
        ⟨[], [("f", [⟨"f", 1, 2, "If", ""⟩])]⟩ ≤
      BlockCoverageReport.get_total_coverage
        ⟨[("f", [2])], [("f", [⟨"f", 1, 2, "If", ""⟩])]⟩ ∧
      BlockCoverageReport.covered_count
        ⟨[], [("f", [⟨"f", 1, 2, "If", ""⟩])]⟩ "f" = 0 ∧
      BlockCoverageReport.covered_count
        ⟨[("f", [2])], [("f", [⟨"f", 1, 2, "If", ""⟩])]⟩ "f" = 1 :=
  ⟨(append_monotone ⟨[], [("f", [⟨"f", 1, 2, "If", ""⟩])]⟩
      ⟨[("f", [2])], [("f", [⟨"f", 1, 2, "If", ""⟩])]⟩ rfl
      (fun f n hn => absurd hn (by simp [dictGet]))).2.2.2,
    by decide, by decide⟩

/-- C5 (amended): `get_file_coverage` returns `0.0` for a file with no
recorded executed data; for a file with recorded executed data it returns
`|executed[file]| / |executable[file]|` provided the file also has a
recorded, nonempty executable set (an empty one makes the unguarded
division raise `ZeroDivisionError`, a missing one a `KeyError`). -/
theorem line_get_file_coverage_spec (r : LineCoverageReport) (file : String) :
    (dictContains r.coverage_data file = false →
      r.get_file_coverage file = Except.ok 0) ∧
    (∀ el, dictContains r.coverage_data file = true →
      dictFind r.total_executable_lines file = some el →
      el.dedup.length ≠ 0 →
      r.get_file_coverage file =
        Except.ok (((dictGet r.coverage_data file []).dedup.length : ℚ) /
          (el.dedup.length : ℚ))) := by
  constructor
  · intro h
    simp only [LineCoverageReport.get_file_coverage]
    rw [if_pos h]
  · intro el h1 h2 h3
    simp only [LineCoverageReport.get_file_coverage]
    rw [if_neg (by simp [h1]), h2]
    simp only [pyDiv]
    rw [if_neg (by exact_mod_cast h3)]

/-- Witness for C5's amended theorem: a present file yields its ratio, an
absent file yields 0. -/
theorem line_get_file_coverage_spec_witness :
    LineCoverageReport.get_file_coverage
        ⟨[("a", [1, 2])], [("a", [1, 2, 3, 4])]⟩ "b" = Except.ok 0 ∧
      LineCoverageReport.get_file_coverage
        ⟨[("a", [1, 2])], [("a", [1, 2, 3, 4])]⟩ "a" = Except.ok (1 / 2) := by
  refine ⟨(line_get_file_coverage_spec _ "b").1 (by decide),
    ((line_get_file_coverage_spec _ "a").2 [1, 2, 3, 4] (by decide) (by decide)
      (by decide)).trans ?_⟩
  rw [show (dictGet ([("a", [1, 2])] :
      List (String × List Nat)) "a" []).dedup.length = 2 from by decide]
  norm_num

/-- C5 counterexample: a file whose recorded executed set exists (as the
empty set, matching an empty executable universe) makes `get_file_coverage`
raise `ZeroDivisionError` instead of returning a ratio. -/
theorem line_get_file_coverage_counterexample :
    dictContains
        (LineCoverageReport.mk [("f", [])] [("f", [])]).coverage_data "f" = true ∧
      LineCoverageReport.get_file_coverage ⟨[("f", [])], [("f", [])]⟩ "f" =
        Except.error "ZeroDivisionError" := by decide

theorem dictGet_map_self {α : Type} (l : List String) (payload : String → α)
    (dflt : α) (f : String) :
    dictGet (l.map (fun g => (g, payload g))) f dflt =
      if f ∈ l then payload f else dflt := by
  induction l with
  | nil => simp [dictGet]
  | cons g rest ih =>
    unfold dictGet at ih ⊢
    simp only [List.map_cons, List.find?_cons]
    by_cases hg : g = f
    · subst hg
      simp
    · rw [show ((g, payload g).1 == f) = false from by simp [hg]]
      rw [ih]
      simp only [List.mem_cons]
      have : (f = g ∨ f ∈ rest) ↔ f ∈ rest := by
        constructor
        · rintro (rfl | h)
          · exact absurd rfl hg
          · exact h
        · exact Or.inr
      rw [if_congr this rfl rfl]

/-- C6: in the snapshot produced by `analyze_coverage_data`, every stored
executed line of every file also lies in that file's executable set: the
raw trace is intersected with the executable universe before storing. -/
theorem analyze_coverage_data_clean (cov : CovMeasurement) (f : String) (n : Nat)
    (hn : n ∈ dictGet (analyze_coverage_data cov).1 f []) :
    n ∈ dictGet (analyze_coverage_data cov).2 f [] := by
  simp only [analyze_coverage_data] at hn ⊢
  rw [dictGet_map_self] at hn
  by_cases hf : f ∈ cov.measured_files
  · rw [if_pos hf] at hn
    exact (List.mem_filter.1 hn).1
  · rw [if_neg hf] at hn
    exact absurd hn (List.not_mem_nil n)

/-- Witness for C6: line 1 survives cleaning (it is executable), so it is
in the executable set; the raw line 7 outside the universe was dropped. -/
theorem analyze_coverage_data_clean_witness :
    1 ∈ dictGet
        (analyze_coverage_data
          ⟨["f"], fun _ => [1, 2, 7], fun _ => [1, 2, 3]⟩).2 "f" [] ∧
      7 ∉ dictGet
        (analyze_coverage_data
          ⟨["f"], fun _ => [1, 2, 7], fun _ => [1, 2, 3]⟩).1 "f" [] :=
  ⟨analyze_coverage_data_clean _ "f" 1 (by decide), by decide⟩

/-- C10: the line-level `get_total_coverage` divides without a guard and
raises `ZeroDivisionError` whenever the snapshot's total executable line
count is zero, while the block-level `get_total_coverage` returns 0 on a
catalogue with zero blocks. -/
theorem line_total_coverage_zero_division (lr : LineCoverageReport)
    (br : BlockCoverageReport)
    (hl : (lr.total_executable_lines.map (fun p => p.2.dedup.length)).sum = 0)
    (hb : (br.total_executable_blocks.map (fun p => p.2.length)).sum = 0) :
    lr.get_total_coverage = Except.error "ZeroDivisionError" ∧
      br.get_total_coverage = 0 := by
  constructor
  · simp only [LineCoverageReport.get_total_coverage]
    rw [hl]
    simp [pyDiv]
  · simp only [BlockCoverageReport.get_total_coverage]
    rw [if_neg (by omega)]

/-- Witness for C10: a measured file with an empty executable set crashes
the line-level total, while the empty block report yields 0. -/
theorem line_total_coverage_zero_division_witness :
    LineCoverageReport.get_total_coverage ⟨[("f", [1])], [("f", [])]⟩ =
        Except.error "ZeroDivisionError" ∧
      BlockCoverageReport.get_total_coverage ⟨[], []⟩ = 0 :=
  line_total_coverage_zero_division _ _ (by decide) (by decide)

theorem Block.pyEq_refl (b : Block) : Block.pyEq b b = true := by
  simp [Block.pyEq]

/-- Spec side (§4.1): the block-defining construct kind of a statement. -/
def blockKind : PyStmt → Option String
  | .Simple _ _ => none
  | .FunctionDef _ _ _ => some "Function"
  | .AsyncFunctionDef _ _ _ => some "Async Function"
  | .ClassDef _ _ _ => some "Class"
  | .IfStmt _ _ _ _ => some "If"
  | .ForStmt _ _ _ _ => some "For"
  | .AsyncForStmt _ _ _ _ => some "Async For"
  | .WhileStmt _ _ _ _ => some "While"
  | .TryStmt _ _ _ _ _ _ => some "Try"
  | .WithStmt _ _ _ => some "With"
  | .AsyncWithStmt _ _ _ => some "Async With"

/-- Spec side (§4.1): the companion Else/Finally blocks of a construct. -/
def companionBlocks (file : String) (code_lines : List String) :
    PyStmt → List Block
  | .IfStmt _ _ _ orelse =>
      if orelse.isEmpty then [] else [add_else_block file code_lines orelse]
  | .ForStmt _ _ _ orelse =>
      if orelse.isEmpty then [] else [add_else_block file code_lines orelse]
  | .AsyncForStmt _ _ _ orelse =>
      if orelse.isEmpty then [] else [add_else_block file code_lines orelse]
  | .WhileStmt _ _ _ orelse =>
      if orelse.isEmpty then [] else [add_else_block file code_lines orelse]
  | .TryStmt _ _ _ _ orelse finalbody =>
      (if orelse.isEmpty then [] else [add_else_block file code_lines orelse]) ++
        (if finalbody.isEmpty then []
          else [add_finally_block file code_lines finalbody])
  | _ => []

/-- Spec side (§4.1): the child statement lists a construct's traversal
recurses into, in syntax-tree field order. -/
def childBodies : PyStmt → List (List PyStmt)
  | .Simple _ _ => []
  | .FunctionDef _ _ b => [b]
  | .AsyncFunctionDef _ _ b => [b]
  | .ClassDef _ _ b => [b]
  | .IfStmt _ _ b o => [b, o]
  | .ForStmt _ _ b o => [b, o]
  | .AsyncForStmt _ _ b o => [b, o]
  | .WhileStmt _ _ b o => [b, o]
  | .TryStmt _ _ b hs o f => (b :: hs) ++ [o, f]
  | .WithStmt _ _ b => [b]
  | .AsyncWithStmt _ _ b => [b]

theorem visitHandlers_eq (file : String) (code_lines : List String)
    (unparse : PyStmt → String) (hs : List (List PyStmt)) :
    visitHandlers file code_lines unparse hs =
      (hs.map (visitStmts file code_lines unparse)).flatten := by
  induction hs with
  | nil => rfl
  | cons h rest ih => simp [visitHandlers, ih]

/-- C7 (amended): the extraction of any block-defining statement is its own
primary block first, then its companion Else/Finally blocks, then the
blocks of all statements nested inside it: every parent block precedes
every block nested in its construct.  (The companions come before the
nested blocks, so the whole list is not in ascending source position; see
the counterexample.) -/
theorem visitStmt_parent_first (file : String) (code_lines : List String)
    (unparse : PyStmt → String) (s : PyStmt) (k : String)
    (h : blockKind s = some k) :
    visitStmt file code_lines unparse s =
      add_block file unparse s k ::
        (companionBlocks file code_lines s ++
          ((childBodies s).map (visitStmts file code_lines unparse)).flatten) := by
  cases s with
  | Simple l e => simp [blockKind] at h
  | FunctionDef l e body =>
      obtain rfl := Option.some.inj h
      simp [visitStmt, companionBlocks, childBodies]
  | AsyncFunctionDef l e body =>
      obtain rfl := Option.some.inj h
      simp [visitStmt, companionBlocks, childBodies]
  | ClassDef l e body =>
      obtain rfl := Option.some.inj h
      simp [visitStmt, companionBlocks, childBodies]
  | IfStmt l e body orelse =>
      obtain rfl := Option.some.inj h
      simp [visitStmt, companionBlocks, childBodies]
  | ForStmt l e body orelse =>
      obtain rfl := Option.some.inj h
      simp [visitStmt, companionBlocks, childBodies]
  | AsyncForStmt l e body orelse =>
      obtain rfl := Option.some.inj h
      simp [visitStmt, companionBlocks, childBodies]
  | WhileStmt l e body orelse =>
      obtain rfl := Option.some.inj h
      simp [visitStmt, companionBlocks, childBodies]
  | TryStmt l e body handlers orelse finalbody =>
      obtain rfl := Option.some.inj h
      simp [visitStmt, companionBlocks, childBodies, visitHandlers_eq]
  | WithStmt l e body =>
      obtain rfl := Option.some.inj h
      simp [visitStmt, companionBlocks, childBodies]
  | AsyncWithStmt l e body =>
      obtain rfl := Option.some.inj h
      simp [visitStmt, companionBlocks, childBodies]

/-- Witness for C7's amended theorem at a concrete `if` statement. -/
theorem visitStmt_parent_first_witness :
    visitStmt "f" ["if c:", "    for x in y:", "        pass", "else:", "    pass"]
        (fun _ => "")
        (.IfStmt 1 5 [.ForStmt 2 3 [.Simple 3 3] []] [.Simple 5 5]) =
      add_block "f" (fun _ => "")
          (.IfStmt 1 5 [.ForStmt 2 3 [.Simple 3 3] []] [.Simple 5 5]) "If" ::
        (companionBlocks "f"
            ["if c:", "    for x in y:", "        pass", "else:", "    pass"]
            (.IfStmt 1 5 [.ForStmt 2 3 [.Simple 3 3] []] [.Simple 5 5]) ++
          ((childBodies (.IfStmt 1 5 [.ForStmt 2 3 [.Simple 3 3] []] [.Simple 5 5])).map
            (visitStmts "f"
              ["if c:", "    for x in y:", "        pass", "else:", "    pass"]
              (fun _ => ""))).flatten) :=
  visitStmt_parent_first "f"
    ["if c:", "    for x in y:", "        pass", "else:", "    pass"]
    (fun _ => "") (.IfStmt 1 5 [.ForStmt 2 3 [.Simple 3 3] []] [.Simple 5 5])
    "If" rfl

/-- C7 counterexample: with a `for` nested in an `if` body and an `else`
clause present, the emitted start lines are `[1, 4, 2]`: the Else companion
(line 4) precedes the nested For block (line 2), so the output is not in
ascending source position. -/
theorem extract_not_source_ordered :
    ((extract_code_blocks "f"
        ["if c:", "    for x in y:", "        pass", "else:", "    pass"]
        (fun _ => "")
        [.IfStmt 1 5 [.ForStmt 2 3 [.Simple 3 3] []] [.Simple 5 5]]).map
      Block.start_line) = [1, 4, 2] ∧
      ¬ List.Sorted (fun a b => a ≤ b) [1, 4, 2] := by
  constructor
  · decide
  · intro hs
    exact absurd (List.rel_of_sorted_cons (List.sorted_cons.1 hs).2 2 (by simp))
      (by omega)

/-- C2 (amended): for a Try statement with nonempty else and finally
clauses, the Else block is recorded starting one line before its first
body statement, so its evidence window `(start_line, end_line]` is the
full else-body span and executing the first else-body line alone covers
it; the Finally block is recorded starting at its first body statement's
own line, which the window excludes, so executing that line alone never
covers it. -/
theorem else_finally_window (file : String) (code_lines : List String)
    (unparse : PyStmt → String) (l e : Nat) (body : List PyStmt)
    (handlers : List (List PyStmt)) (orelse finalbody : List PyStmt)
    (ho : orelse.isEmpty = false) (hf : finalbody.isEmpty = false)
    (ho1 : 1 ≤ firstLineno orelse)
    (ho2 : firstLineno orelse ≤ lastEndLineno orelse) :
    (add_else_block file code_lines orelse).start_line + 1 =
        firstLineno orelse ∧
      (add_finally_block file code_lines finalbody).start_line =
        firstLineno finalbody ∧
      add_finally_block file code_lines finalbody ∈
        visitStmt file code_lines unparse
          (.TryStmt l e body handlers orelse finalbody) ∧
      BlockCoverageReport.is_block_covered
        ⟨[(file, [firstLineno orelse])],
          [(file, visitStmt file code_lines unparse
            (.TryStmt l e body handlers orelse finalbody))]⟩
        (add_else_block file code_lines orelse) = true ∧
      BlockCoverageReport.is_block_covered
        ⟨[(file, [firstLineno finalbody])],
          [(file, visitStmt file code_lines unparse
            (.TryStmt l e body handlers orelse finalbody))]⟩
        (add_finally_block file code_lines finalbody) = false := by
  have hoe : ¬ (orelse.isEmpty = true) := by simp [ho]
  have hes : (add_else_block file code_lines orelse).start_line =
      firstLineno orelse - 1 := rfl
  have hee : (add_else_block file code_lines orelse).end_line =
      lastEndLineno orelse := rfl
  have hef : (add_else_block file code_lines orelse).file_path = file := rfl
  have hfs : (add_finally_block file code_lines finalbody).start_line =
      firstLineno finalbody := rfl
  have hff : (add_finally_block file code_lines finalbody).file_path =
      file := rfl
  refine ⟨by omega, hfs, ?_, ?_, ?_⟩
  · simp only [visitStmt]
    rw [if_neg hoe, if_neg (by simp [hf])]
    exact List.mem_cons_of_mem _
      (List.mem_append_right _
        (List.mem_append_left _ (List.mem_cons_self _ _)))
  · simp only [BlockCoverageReport.is_block_covered,
      BlockCoverageReport._get_covered_blocks]
    rw [List.any_eq_true]
    refine ⟨add_else_block file code_lines orelse, ?_, Block.pyEq_refl _⟩
    rw [List.mem_filter]
    constructor
    · rw [show dictGet
          [(file, visitStmt file code_lines unparse
            (.TryStmt l e body handlers orelse finalbody))]
          (add_else_block file code_lines orelse).file_path [] =
          visitStmt file code_lines unparse
            (.TryStmt l e body handlers orelse finalbody) from by
        simp [dictGet, hef]]
      simp only [visitStmt]
      rw [if_neg hoe]
      exact List.mem_cons_of_mem _
        (List.mem_append_left _ (List.mem_cons_self _ _))
    · rw [show dictGet [(file, [firstLineno orelse])]
          (add_else_block file code_lines orelse).file_path [] =
          [firstLineno orelse] from by simp [dictGet, hef]]
      apply blockWindowHit_iff.2
      exact ⟨firstLineno orelse, List.mem_cons_self _ _, by omega, by omega⟩
  · simp only [BlockCoverageReport.is_block_covered,
      BlockCoverageReport._get_covered_blocks]
    rw [List.any_eq_false]
    intro x hx
    rw [List.mem_filter] at hx
    intro hxeq
    obtain ⟨-, h2, -, -⟩ := Block.pyEq_iff.1 hxeq
    have hwin := blockWindowHit_iff.1 hx.2
    obtain ⟨n, hn, hlt, -⟩ := hwin
    rw [show dictGet [(file, [firstLineno finalbody])]
        (add_finally_block file code_lines finalbody).file_path [] =
        [firstLineno finalbody] from by simp [dictGet, hff]] at hn
    have hn' : n = firstLineno finalbody := by simpa using hn
    omega

/-- Witness for C2's amended theorem at a concrete try statement with an
else clause on line 6 and a two-line finally body on lines 8-9. -/
theorem else_finally_window_witness :
    (add_else_block "f"
        ["try:", "    a", "except:", "    b", "else:", "    c", "finally:",
          "    d", "    e2"] [.Simple 6 6]).start_line + 1 =
        firstLineno [.Simple 6 6] ∧
      (add_finally_block "f"
        ["try:", "    a", "except:", "    b", "else:", "    c", "finally:",
          "    d", "    e2"] [.Simple 8 8, .Simple 9 9]).start_line =
        firstLineno [.Simple 8 8, .Simple 9 9] ∧
      add_finally_block "f"
          ["try:", "    a", "except:", "    b", "else:", "    c", "finally:",
            "    d", "    e2"] [.Simple 8 8, .Simple 9 9] ∈
        visitStmt "f"
          ["try:", "    a", "except:", "    b", "else:", "    c", "finally:",
            "    d", "    e2"] (fun _ => "")
          (.TryStmt 1 9 [.Simple 2 2] [[.Simple 4 4]] [.Simple 6 6]
            [.Simple 8 8, .Simple 9 9]) ∧
      BlockCoverageReport.is_block_covered
        ⟨[("f", [firstLineno [.Simple 6 6]])],
          [("f", visitStmt "f"
            ["try:", "    a", "except:", "    b", "else:", "    c", "finally:",
              "    d", "    e2"] (fun _ => "")
            (.TryStmt 1 9 [.Simple 2 2] [[.Simple 4 4]] [.Simple 6 6]
              [.Simple 8 8, .Simple 9 9]))]⟩
        (add_else_block "f"
          ["try:", "    a", "except:", "    b", "else:", "    c", "finally:",
            "    d", "    e2"] [.Simple 6 6]) = true ∧
      BlockCoverageReport.is_block_covered
        ⟨[("f", [firstLineno [.Simple 8 8, .Simple 9 9]])],
          [("f", visitStmt "f"
            ["try:", "    a", "except:", "    b", "else:", "    c", "finally:",
              "    d", "    e2"] (fun _ => "")
            (.TryStmt 1 9 [.Simple 2 2] [[.Simple 4 4]] [.Simple 6 6]
              [.Simple 8 8, .Simple 9 9]))]⟩
        (add_finally_block "f"
          ["try:", "    a", "except:", "    b", "else:", "    c", "finally:",
            "    d", "    e2"] [.Simple 8 8, .Simple 9 9]) = false :=
  else_finally_window "f"
    ["try:", "    a", "except:", "    b", "else:", "    c", "finally:",
      "    d", "    e2"] (fun _ => "") 1 9 [.Simple 2 2] [[.Simple 4 4]]
    [.Simple 6 6] [.Simple 8 8, .Simple 9 9] rfl rfl (by decide) (by decide)

/-- C2 counterexample: executing only line 6, the first line of the
recorded `[6, 7]` span of the Finally block, leaves `is_block_covered`
false: the full inclusive span is not the evidence window. -/
theorem finally_first_line_counterexample :
    (⟨"f", 6, 7, "Finally", "    z = 3\n    w = 4"⟩ : Block) ∈
        extract_code_blocks "f"
          ["try:", "    x = 1", "except:", "    y = 2", "finally:",
            "    z = 3", "    w = 4"] (fun _ => "")
          [.TryStmt 1 7 [.Simple 2 2] [[.Simple 4 4]] []
            [.Simple 6 6, .Simple 7 7]] ∧
      Block.start_line ⟨"f", 6, 7, "Finally", "    z = 3\n    w = 4"⟩ ≤ 6 ∧
      6 ≤ Block.end_line ⟨"f", 6, 7, "Finally", "    z = 3\n    w = 4"⟩ ∧
      BlockCoverageReport.is_block_covered
        ⟨[("f", [6])],
          [("f", extract_code_blocks "f"
            ["try:", "    x = 1", "except:", "    y = 2", "finally:",
              "    z = 3", "    w = 4"] (fun _ => "")
            [.TryStmt 1 7 [.Simple 2 2] [[.Simple 4 4]] []
              [.Simple 6 6, .Simple 7 7]])]⟩
        ⟨"f", 6, 7, "Finally", "    z = 3\n    w = 4"⟩ = false := by decide

end CoverageTracer
